import Mathlib

namespace Proxy

/-! Shallow embedding of the go-smtp-proxy backend: `backend.go` (connection
factory and login routines) and the session adapter source file. Pure Go
values become Lean values. The external go-smtp client, the network and the
TLS library are black boxes whose outcomes are supplied by explicit
environment records. Mutation of `tls.Config` values through pointers is
modelled by an explicit heap of config cells addressed by natural numbers.
Observable side effects (dialing, closing the upstream client, the
authentication exchange, forwarded commands, data-writer operations) are
recorded as event traces. Durations are Go `time.Duration` values, i.e.
nanosecond counts, modelled as `Nat`. -/

/-- Security mode of the upstream connection; source `backend.go`:
`type Security int` with constants `SecurityTLS`, `SecurityStartTLS`,
`SecurityNone`. -/
inductive Security where
  | SecurityTLS
  | SecurityStartTLS
  | SecurityNone
  deriving DecidableEq, Repr

/-- One Go `time.Second` in nanoseconds. -/
def timeSecond : Nat := 1000000000

/-- One Go `time.Minute` in nanoseconds. -/
def timeMinute : Nat := 60 * timeSecond

/-- Source `backend.go` line 24: `defaultTimeout = 30 * time.Second`. -/
def defaultTimeout : Nat := 30 * timeSecond

/-- Source `backend.go` line 28: `defaultCommandTimeout = 5 * time.Minute`. -/
def defaultCommandTimeout : Nat := 5 * timeMinute

/-- Source `backend.go` line 31: `defaultSubmissionTimeout = 12 * time.Minute`. -/
def defaultSubmissionTimeout : Nat := 12 * timeMinute

/-- Model of Go `tls.Config`: the `ServerName` field, which the factory may
set, plus `rest`, one value standing for all the other fields, which `Clone`
copies verbatim and the factory never touches. -/
structure TLSConfig where
  ServerName : String
  rest : Nat
  deriving DecidableEq, Repr

/-- Heap of `tls.Config` cells; a Go `*tls.Config` pointer is an index. -/
abbrev Heap := List TLSConfig

/-- The Go zero value `tls.Config{}`. -/
def emptyTLSConfig : TLSConfig := ⟨"", 0⟩

/-- Read the config cell a pointer refers to (zero config when dangling). -/
def heapGet : Heap → Nat → TLSConfig
  | [], _ => emptyTLSConfig
  | c :: _, 0 => c
  | _ :: t, n + 1 => heapGet t n

/-- Overwrite the config cell a pointer refers to. -/
def heapSet : Heap → Nat → TLSConfig → Heap
  | [], _, _ => []
  | _ :: t, 0, c => c :: t
  | x :: t, n + 1, c => x :: heapSet t n c

/-- Allocate a fresh config cell; returns the new heap and the new pointer. -/
def heapAlloc (h : Heap) (c : TLSConfig) : Heap × Nat :=
  (h ++ [c], h.length)

/-- Source `backend.go`: the `Backend` struct. `TLSConfig` is a pointer into
the config heap (`none` models a nil pointer); durations are nanoseconds. -/
structure Backend where
  Addr : String
  Security : Security
  TLSConfig : Option Nat
  LMTP : Bool
  Host : String
  LocalName : String
  DialTimeout : Nat
  CommandTimeout : Nat
  SubmissionTimeout : Nat
  deriving DecidableEq, Repr

/-- Source `backend.go` `New`: address plus implicit StartTLS security; all
other fields take their Go zero values. -/
def New (addr : String) : Backend :=
  { Addr := addr, Security := Security.SecurityStartTLS, TLSConfig := none,
    LMTP := false, Host := "", LocalName := "", DialTimeout := 0,
    CommandTimeout := 0, SubmissionTimeout := 0 }

/-- Source `backend.go` `NewTLS`: address, explicit TLS parameters, TLS-from-
connect security. -/
def NewTLS (addr : String) (tlsConfig : Option Nat) : Backend :=
  { Addr := addr, Security := Security.SecurityTLS, TLSConfig := tlsConfig,
    LMTP := false, Host := "", LocalName := "", DialTimeout := 0,
    CommandTimeout := 0, SubmissionTimeout := 0 }

/-- Source `backend.go` `NewLMTP`: address, LMTP protocol, client host, no
transport security. -/
def NewLMTP (addr : String) (host : String) : Backend :=
  { Addr := addr, Security := Security.SecurityNone, TLSConfig := none,
    LMTP := true, Host := host, LocalName := "", DialTimeout := 0,
    CommandTimeout := 0, SubmissionTimeout := 0 }

/-- Errors a connection attempt or a forwarded command may surface. The
constructors are tagged by the site that produces them; `lmtpTLS` is the
configuration error of `backend.go` line 102. -/
inductive Err where
  | lmtpTLS
  | dialErr
  | initErr
  | helloErr
  | startTLSErr
  | authErr
  | readFail
  | writeFail
  | closeFail
  deriving DecidableEq, Repr

/-- Observable side effects on the network, the upstream client and the
data writer. -/
inductive Event where
  | dial
  | hello
  | starttls
  | auth
  | clientClose
  | quit
  | reset
  | noop
  | mail
  | rcpt
  | dataOpen
  | write (bytes : List Nat)
  | wcClose
  deriving DecidableEq, Repr

/-- Outcomes of the black-box collaborators during connection establishment:
whether the dial, the protocol-client initialization, the identity
announcement, the STARTTLS upgrade and the authentication exchange succeed. -/
structure Env where
  dialOK : Bool
  initOK : Bool
  helloOK : Bool
  startTLSOK : Bool
  authOK : Bool
  deriving DecidableEq, Repr

/-- The upstream protocol client as far as this layer observes it: an LMTP
client records the host string handed to `smtp.NewClientLMTP`; an SMTP client
records the timeouts set on the `smtp.Client` literal of `backend.go`. -/
inductive Client where
  | lmtp (host : String)
  | smtp (commandTimeout submissionTimeout : Nat)
  deriving DecidableEq, Repr

/-- Result of a `newConn`-shaped call: the client reference (possibly nil),
the error (possibly nil), the trace of observable effects and the final
config heap. -/
structure ConnOut where
  client : Option Client
  err : Option Err
  events : List Event
  heap : Heap
  deriving DecidableEq, Repr

/-- First index of a character in a character list, if any. -/
def firstIdx (c : Char) : List Char → Option Nat
  | [] => none
  | x :: xs => if x = c then some 0 else (firstIdx c xs).map (· + 1)

/-- Last index of a character in a character list, if any. -/
def lastIdx (c : Char) : List Char → Option Nat
  | [] => none
  | x :: xs =>
    match lastIdx c xs with
    | some j => some (j + 1)
    | none => if x = c then some 0 else none

/-- Model of the external Go `net.SplitHostPort`: split `host:port` or
`[host]:port` at the last colon; `none` models the error cases (missing
colon, stray colon in an unbracketed host, stray bracket, missing port after
a bracketed host). -/
def splitHostPort (s : String) : Option (String × String) :=
  let cs := s.toList
  match lastIdx ':' cs with
  | none => none
  | some i =>
    match cs with
    | '[' :: _ =>
      match firstIdx ']' cs with
      | none => none
      | some e =>
        if e + 1 = cs.length then none
        else if e + 1 ≠ i then none
        else
          let host := (cs.drop 1).take (e - 1)
          if (firstIdx '[' (cs.drop 1)).isSome ∨ (firstIdx ']' (cs.drop (e + 1))).isSome then
            none
          else some (String.mk host, String.mk (cs.drop (i + 1)))
    | _ =>
      let host := cs.take i
      if (firstIdx ':' host).isSome then none
      else if (firstIdx '[' cs).isSome ∨ (firstIdx ']' cs).isSome then none
      else some (String.mk host, String.mk (cs.drop (i + 1)))

/-- Source `backend.go` lines 73-76: the dial timeout, defaulted when zero. -/
def resolveDialTimeout (be : Backend) : Nat :=
  if be.DialTimeout = 0 then defaultTimeout else be.DialTimeout

/-- Source `backend.go` lines 77-80: the command timeout, defaulted when
zero. -/
def resolveCommandTimeout (be : Backend) : Nat :=
  if be.CommandTimeout = 0 then defaultCommandTimeout else be.CommandTimeout

/-- Source `backend.go` lines 81-84: the submission timeout, defaulted when
zero. -/
def resolveSubmissionTimeout (be : Backend) : Nat :=
  if be.SubmissionTimeout = 0 then defaultSubmissionTimeout else be.SubmissionTimeout

/-- Source `backend.go` lines 86-89: `host := be.Host`, falling back to the
host portion of `be.Addr`; `SplitHostPort` yields an empty host on error,
so a malformed address with `Host` unset resolves to the empty string. -/
def resolveHost (be : Backend) : String :=
  if be.Host = "" then
    match splitHostPort be.Addr with
    | some hp => hp.1
    | none => ""
  else be.Host

/-- Source `backend.go` lines 90-98: pick the effective `tls.Config` — a
fresh zero config when the backend holds a nil pointer, otherwise a clone of
the pointed-to config — then default its `ServerName` to the resolved host
when empty. The returned pointer addresses the new cell; the original cell
is never written. -/
def resolveTLS (be : Backend) (host : String) (h : Heap) : Heap × Nat :=
  let hp : Heap × Nat :=
    match be.TLSConfig with
    | none => heapAlloc h emptyTLSConfig
    | some q => heapAlloc h (heapGet h q)
  let cfg := heapGet hp.1 hp.2
  if cfg.ServerName = "" then
    (heapSet hp.1 hp.2 { cfg with ServerName := host }, hp.2)
  else hp

/-- Source `backend.go` lines 134-145 of `newConn`: after a successful
protocol-client initialization, announce `LocalName` when set (aborting with
the client and the error on failure), then, under StartTLS security, perform
the upgrade (same abort contract), and finally return the client. -/
def finishConn (be : Backend) (env : Env) (c : Client) (evs : List Event)
    (h : Heap) : ConnOut :=
  if be.LocalName ≠ "" ∧ env.helloOK = false then
    ⟨some c, some Err.helloErr, evs ++ [Event.hello], h⟩
  else
    let evs1 := if be.LocalName ≠ "" then evs ++ [Event.hello] else evs
    if be.Security = Security.SecurityStartTLS ∧ env.startTLSOK = false then
      ⟨some c, some Err.startTLSErr, evs1 ++ [Event.starttls], h⟩
    else
      let evs2 :=
        if be.Security = Security.SecurityStartTLS then evs1 ++ [Event.starttls]
        else evs1
      ⟨some c, none, evs2, h⟩

/-- Source `backend.go` lines 69-148: the connection factory. Resolve
timeouts, host and TLS parameters; reject LMTP with transport security
before any dial; dial (plain or TLS alike recorded as one `dial` event);
initialize the protocol client — `smtp.NewClientLMTP` yields no client on
failure, while the SMTP branch builds the `smtp.Client` literal before
`InitConn` and returns it even when initialization fails — then announce the
local name and upgrade via STARTTLS as applicable. Note line 122 passes
`be.Host` to the LMTP initializer, not the resolved host. -/
def newConn (be : Backend) (env : Env) (h0 : Heap) : ConnOut :=
  let commandTimeout := resolveCommandTimeout be
  let submissionTimeout := resolveSubmissionTimeout be
  let host := resolveHost be
  let h1 := (resolveTLS be host h0).1
  if be.LMTP = true ∧ be.Security ≠ Security.SecurityNone then
    ⟨none, some Err.lmtpTLS, [], h1⟩
  else if env.dialOK = false then
    ⟨none, some Err.dialErr, [Event.dial], h1⟩
  else if be.LMTP = true then
    if env.initOK = false then
      ⟨none, some Err.initErr, [Event.dial], h1⟩
    else
      finishConn be env (Client.lmtp be.Host) [Event.dial] h1
  else
    let c := Client.smtp commandTimeout submissionTimeout
    if env.initOK = false then
      ⟨some c, some Err.initErr, [Event.dial], h1⟩
    else
      finishConn be env c [Event.dial] h1

/-- Source `backend.go` lines 150-162: `login` performs `newConn` and then,
on success, the plain-authentication exchange, propagating the client
reference alongside any error. -/
def login (be : Backend) (env : Env) (h : Heap) : ConnOut :=
  let out := newConn be env h
  match out.err with
  | some _ => out
  | none =>
    if env.authOK then ⟨out.client, none, out.events ++ [Event.auth], out.heap⟩
    else ⟨out.client, some Err.authErr, out.events ++ [Event.auth], out.heap⟩

/-- Model of `smtp.SMTPError`: numeric code, enhanced code, message. -/
structure SMTPError where
  Code : Nat
  EnhancedCode : Nat × Nat × Nat
  Message : String
  deriving DecidableEq, Repr

/-- The session adapter: the wrapped client reference, the backend, and the
latched status slot `st` (Go zero value: nil). -/
structure session where
  c : Option Client
  be : Backend
  st : Option SMTPError
  deriving DecidableEq, Repr

/-- The session literal `&session\x7bc: c, be: be\x7d` built by `Login` and
`AnonymousLogin`: the status slot starts out absent. -/
def freshSession (c : Option Client) (be : Backend) : session :=
  ⟨c, be, none⟩

/-- Result of a `Login`-shaped call: the session (nil on failure), the
error, the trace and the final heap. -/
structure LoginOut where
  sess : Option session
  err : Option Err
  events : List Event
  heap : Heap
  deriving DecidableEq, Repr

/-- Source `backend.go` lines 164-178: `Login` delegates to `login`; on
failure it closes the connection when one was returned and propagates the
error; on success it wraps the connection in a fresh session. -/
def Login (be : Backend) (env : Env) (h : Heap) : LoginOut :=
  let out := login be env h
  match out.err with
  | some e =>
    match out.client with
    | some _ => ⟨none, some e, out.events ++ [Event.clientClose], out.heap⟩
    | none => ⟨none, some e, out.events, out.heap⟩
  | none => ⟨some (freshSession out.client be), none, out.events, out.heap⟩

/-- Source `backend.go` lines 180-194: `AnonymousLogin` delegates directly to
`newConn` — no authentication exchange — with the same close-on-failure and
wrap-on-success behavior as `Login`. -/
def AnonymousLogin (be : Backend) (env : Env) (h : Heap) : LoginOut :=
  let out := newConn be env h
  match out.err with
  | some e =>
    match out.client with
    | some _ => ⟨none, some e, out.events ++ [Event.clientClose], out.heap⟩
    | none => ⟨none, some e, out.events, out.heap⟩
  | none => ⟨some (freshSession out.client be), none, out.events, out.heap⟩

/-- Behavior of the black-box data writer obtained from `c.Data(statusCb)`:
whether opening fails, whether and where a write fails, the error returned by
`wc.Close`, and the argument the writer passes to the status callback during
its close (`none` when the callback is not invoked; `some none` models an
invocation with a nil status pointer). -/
structure DataEnv where
  dataErr : Option Err
  writeFailAt : Option (Nat × Err)
  closeErr : Option Err
  closeCallback : Option (Option SMTPError)
  deriving DecidableEq, Repr

/-- An input stream for `Data`: the bytes it yields, then either end of
input (`none`) or a read error. -/
structure Reader where
  bytes : List Nat
  readErr : Option Err
  deriving DecidableEq, Repr

/-- Model of `io.Copy` from the reader to the data writer: bytes read before
a read error are still written; a write failure at position `k` stops the
copy there and surfaces the write error; otherwise the read error, if any,
is surfaced after all bytes were written. Returns the copy error and the
bytes actually written. -/
def ioCopy (env : DataEnv) (r : Reader) : Option Err × List Nat :=
  match env.writeFailAt with
  | some ke =>
    if ke.1 < r.bytes.length then (some ke.2, r.bytes.take ke.1)
    else (r.readErr, r.bytes)
  | none => (r.readErr, r.bytes)

/-- Effect of `wc.Close` on the latched status: the writer may invoke the
status callback (`statusCb`, which assigns `s.st`) with its argument. -/
def applyCloseCb (s : session) (env : DataEnv) : session :=
  match env.closeCallback with
  | some a => { s with st := a }
  | none => s

/-- Source session adapter, `Data`: open the upstream data writer with the
status callback; on open failure return that error. Copy the reader into
the writer; on a copy error close the writer, discard the close error and
return the copy error; on full copy close the writer and return its close
error. Both paths close the writer exactly once. -/
def session.Data (s : session) (env : DataEnv) (r : Reader) :
    session × Option Err × List Event :=
  match env.dataErr with
  | some e => (s, some e, [Event.dataOpen])
  | none =>
    match ioCopy env r with
    | (some e, written) =>
      (applyCloseCb s env, some e,
        [Event.dataOpen, Event.write written, Event.wcClose])
    | (none, written) =>
      (applyCloseCb s env, env.closeErr,
        [Event.dataOpen, Event.write written, Event.wcClose])

/-- Source session adapter, `Reset`: forward `c.Reset()`; its error `e` is
discarded. -/
def session.Reset (e : Option Err) : List Event := [Event.reset]

/-- Source session adapter, `Noop`: forward `c.Noop()` verbatim; `e` is the
upstream result. -/
def session.Noop (e : Option Err) : Option Err × List Event := (e, [Event.noop])

/-- Source session adapter, `Mail`: forward `c.Mail(from, opts)` verbatim. -/
def session.Mail (fromAddr : String) (e : Option Err) : Option Err × List Event :=
  (e, [Event.mail])

/-- Source session adapter, `Rcpt`: forward `c.Rcpt(to)` verbatim. -/
def session.Rcpt (toAddr : String) (e : Option Err) : Option Err × List Event :=
  (e, [Event.rcpt])

/-- Source session adapter, `Logout`: forward `c.Quit()`, the graceful
session termination, and propagate its error. -/
def session.Logout (e : Option Err) : Option Err × List Event :=
  (e, [Event.quit])

/-- Source session adapter, `Status`: read the latched status slot; a pure
field read, producing no upstream effect. -/
def session.Status (s : session) : Option SMTPError × List Event := (s.st, [])

/-! Concrete inputs used by witnesses and counterexamples. -/

/-- Environment in which every black-box step succeeds. -/
def envOK : Env := ⟨true, true, true, true, true⟩

/-- Environment in which the protocol-client initialization fails. -/
def envInitFail : Env := ⟨true, false, true, true, true⟩

/-- Environment in which only the authentication exchange fails. -/
def envAuthFail : Env := ⟨true, true, true, true, false⟩

/-- An LMTP backend with `Host` unset and a well-formed address. -/
def beLmtpNoHost : Backend :=
  { Addr := "mail.example.org:24", Security := Security.SecurityNone,
    TLSConfig := none, LMTP := true, Host := "", LocalName := "",
    DialTimeout := 0, CommandTimeout := 0, SubmissionTimeout := 0 }

/-- An LMTP backend with `Host` set, used for init-failure scenarios. -/
def beLmtpHost : Backend := NewLMTP "b:1" "h"

/-- An LMTP backend misconfigured with StartTLS security. -/
def beLmtpStartTLS : Backend :=
  { beLmtpHost with Security := Security.SecurityStartTLS }

/-- A plain SMTP backend with explicit timeouts. -/
def beSmtp : Backend :=
  { Addr := "mail.example.org:25", Security := Security.SecurityStartTLS,
    TLSConfig := none, LMTP := false, Host := "", LocalName := "",
    DialTimeout := 7, CommandTimeout := 11, SubmissionTimeout := 13 }

/-- An SMTP backend pointing at config cell 0 of the witness heap. -/
def beSmtpTLSPtr : Backend := { beSmtp with TLSConfig := some 0 }

/-- A one-cell heap whose cell has an empty server name. -/
def heapOne : Heap := [⟨"", 5⟩]

/-- A session with no client and no latched status. -/
def sPlain : session := ⟨none, New "x:1", none⟩

/-- A reader that fails after yielding three bytes. -/
def rFail : Reader := ⟨[1, 2, 3], some Err.readFail⟩

/-- A reader that is copied in full. -/
def rOK : Reader := ⟨[1, 2, 3, 4], none⟩

/-- A data-writer behavior whose close reports a rejection status through the
callback and also returns a close error. -/
def denvReject : DataEnv :=
  ⟨none, none, some Err.closeFail, some (some ⟨554, (5, 7, 1), "rejected"⟩)⟩

/-- A data-writer behavior whose close reports a success status and no close
error. -/
def denvAccept : DataEnv := ⟨none, none, none, some (some ⟨250, (2, 0, 0), "ok"⟩)⟩

/-! Helper lemmas shared by several claims. -/

/-- The connection factory never closes the upstream client and never starts
an authentication exchange: its trace holds only dial, hello and starttls
events. -/
theorem newConn_events_clean (be : Backend) (env : Env) (h : Heap) :
    Event.clientClose ∉ (newConn be env h).events ∧
    Event.auth ∉ (newConn be env h).events := by
  simp only [newConn, finishConn]
  repeat' split
  all_goals simp_all

/-- The `login` routine adds at most the authentication event to the factory
trace; it never closes the client. -/
theorem login_no_close (be : Backend) (env : Env) (h : Heap) :
    Event.clientClose ∉ (login be env h).events := by
  have hc := (newConn_events_clean be env h).1
  simp only [login]
  split
  · exact hc
  · split <;> simp_all

/-- Every branch of the factory returns the heap produced by the TLS
resolution step unchanged. -/
theorem newConn_heap_eq (be : Backend) (env : Env) (h : Heap) :
    (newConn be env h).heap = (resolveTLS be (resolveHost be) h).1 := by
  simp only [newConn, finishConn]
  repeat' split
  all_goals rfl

/-- C1: with `protocol == LMTP` and a security mode other than None, the
factory returns a nil connection and the configuration error, and its trace
holds no dial event — no network operation is performed. -/
theorem lmtp_with_security_is_config_error_no_dial (be : Backend) (env : Env)
    (h : Heap) (hl : be.LMTP = true) (hs : be.Security ≠ Security.SecurityNone) :
    (newConn be env h).client = none ∧
    (newConn be env h).err = some Err.lmtpTLS ∧
    Event.dial ∉ (newConn be env h).events := by
  simp [newConn, hl, hs]

/-- C1 witness: the misconfigured LMTP-with-StartTLS backend hits the
configuration error with an empty trace. -/
theorem lmtp_with_security_is_config_error_no_dial_witness :
    beLmtpStartTLS.LMTP = true ∧
    beLmtpStartTLS.Security ≠ Security.SecurityNone ∧
    (newConn beLmtpStartTLS envOK []).client = none ∧
    (newConn beLmtpStartTLS envOK []).err = some Err.lmtpTLS ∧
    Event.dial ∉ (newConn beLmtpStartTLS envOK []).events := by
  refine ⟨by decide, by decide, ?_⟩
  exact lmtp_with_security_is_config_error_no_dial beLmtpStartTLS envOK []
    (by decide) (by decide)

/-- C2: zero-valued timeout fields resolve to the documented defaults — 30
seconds, 5 minutes and 12 minutes in nanoseconds — while non-zero fields
resolve to their configured values, and the SMTP client the factory builds
carries exactly the resolved command and submission timeouts. -/
theorem timeout_resolution (be : Backend) (env : Env) (h : Heap) :
    (be.DialTimeout = 0 → resolveDialTimeout be = 30000000000) ∧
    (be.DialTimeout ≠ 0 → resolveDialTimeout be = be.DialTimeout) ∧
    (be.CommandTimeout = 0 → resolveCommandTimeout be = 300000000000) ∧
    (be.CommandTimeout ≠ 0 → resolveCommandTimeout be = be.CommandTimeout) ∧
    (be.SubmissionTimeout = 0 → resolveSubmissionTimeout be = 720000000000) ∧
    (be.SubmissionTimeout ≠ 0 → resolveSubmissionTimeout be = be.SubmissionTimeout) ∧
    (∀ ct st, (newConn be env h).client = some (Client.smtp ct st) →
      ct = resolveCommandTimeout be ∧ st = resolveSubmissionTimeout be) := by
  refine ⟨?_, ?_, ?_, ?_, ?_, ?_, ?_⟩
  · intro h0
    simp [resolveDialTimeout, h0, defaultTimeout, timeSecond]
  · intro h0
    simp [resolveDialTimeout, h0]
  · intro h0
    simp [resolveCommandTimeout, h0, defaultCommandTimeout, timeMinute, timeSecond]
  · intro h0
    simp [resolveCommandTimeout, h0]
  · intro h0
    simp [resolveSubmissionTimeout, h0, defaultSubmissionTimeout, timeMinute, timeSecond]
  · intro h0
    simp [resolveSubmissionTimeout, h0]
  · intro ct st
    simp only [newConn, finishConn]
    repeat' split
    all_goals intro hc
    all_goals simp_all

/-- C2 witness: the all-zero-timeout SMTP backend resolves to the three
documented defaults, and a fully configured one keeps its values. -/
theorem timeout_resolution_witness :
    (New "a:1").DialTimeout = 0 ∧
    resolveDialTimeout (New "a:1") = 30000000000 ∧
    resolveCommandTimeout (New "a:1") = 300000000000 ∧
    resolveSubmissionTimeout (New "a:1") = 720000000000 ∧
    beSmtp.DialTimeout ≠ 0 ∧
    resolveDialTimeout beSmtp = beSmtp.DialTimeout := by
  refine ⟨by decide, ?_, ?_, ?_, by decide, ?_⟩
  · exact (timeout_resolution (New "a:1") envOK []).1 (by decide)
  · exact (timeout_resolution (New "a:1") envOK []).2.2.1 (by decide)
  · exact (timeout_resolution (New "a:1") envOK []).2.2.2.2.1 (by decide)
  · exact (timeout_resolution beSmtp envOK []).2.1 (by decide)

/-- C8: `AnonymousLogin` never initiates an authentication exchange — its
trace never holds the auth event, whatever the outcome of connection
establishment. -/
theorem anonymous_login_never_auths (be : Backend) (env : Env) (h : Heap) :
    Event.auth ∉ (AnonymousLogin be env h).events := by
  have ha := (newConn_events_clean be env h).2
  simp only [AnonymousLogin]
  split <;> try split
  all_goals simp_all

/-- C3 amended: with the writer opened and no write failure, a reader that
fails partway makes `Data` return exactly the read error and close the
writer exactly once, discarding the close error; a reader copied in full
makes `Data` close the writer once and return its close error. In both
cases the latched status afterwards is exactly what the close delivered
through the status callback — unchanged only when the callback was not
invoked — because the writer is closed on the failure path as well. -/
theorem data_copy_error_and_close (s : session) (denv : DataEnv) (r : Reader)
    (hopen : denv.dataErr = none) (hw : denv.writeFailAt = none) :
    (∀ e, r.readErr = some e →
      (session.Data s denv r).2.1 = some e ∧
      ((session.Data s denv r).2.2).count Event.wcClose = 1 ∧
      ((session.Data s denv r).1).st =
        (match denv.closeCallback with
         | some a => a
         | none => s.st)) ∧
    (r.readErr = none →
      (session.Data s denv r).2.1 = denv.closeErr ∧
      ((session.Data s denv r).2.2).count Event.wcClose = 1 ∧
      ((session.Data s denv r).1).st =
        (match denv.closeCallback with
         | some a => a
         | none => s.st)) := by
  constructor
  · intro e he
    simp only [session.Data, ioCopy, applyCloseCb, hopen, hw, he]
    refine ⟨trivial, by simp [List.count_cons], ?_⟩
    split <;> simp_all
  · intro he
    simp only [session.Data, ioCopy, applyCloseCb, hopen, hw, he]
    refine ⟨trivial, by simp [List.count_cons], ?_⟩
    split <;> simp_all

/-- C3 counterexample: a reader failing after three bytes, against a writer
whose close reports a rejection status, makes `Data` return the read error
and close the writer exactly once, yet `Status()` is not absent afterwards:
the close is still performed on the failure path and its callback latches
the status. -/
theorem data_read_failure_latches_status :
    (session.Data sPlain denvReject rFail).2.1 = some Err.readFail ∧
    ((session.Data sPlain denvReject rFail).2.2).count Event.wcClose = 1 ∧
    (session.Status (session.Data sPlain denvReject rFail).1).1 =
      some ⟨554, (5, 7, 1), "rejected"⟩ := by decide

/-- C3 witness: on the concrete failing reader, `Data` returns the read
error and the writer-close count is one. -/
theorem data_copy_error_and_close_witness :
    denvReject.dataErr = none ∧ denvReject.writeFailAt = none ∧
    rFail.readErr = some Err.readFail ∧
    (session.Data sPlain denvReject rFail).2.1 = some Err.readFail ∧
    ((session.Data sPlain denvReject rFail).2.2).count Event.wcClose = 1 := by
  refine ⟨by decide, by decide, by decide, ?_⟩
  have h := (data_copy_error_and_close sPlain denvReject rFail (by decide)
    (by decide)).1 Err.readFail (by decide)
  exact ⟨h.1, h.2.1⟩

/-- C4: a freshly constructed session reports an absent status, and after a
`Data` call during which the writer invoked the status callback with a
structured status, `Status()` returns exactly that status. -/
theorem status_absent_then_latched (be : Backend) (c : Option Client)
    (s : session) (denv : DataEnv) (r : Reader) (v : SMTPError)
    (hopen : denv.dataErr = none) (hcb : denv.closeCallback = some (some v)) :
    (session.Status (freshSession c be)).1 = none ∧
    (session.Status (session.Data s denv r).1).1 = some v := by
  constructor
  · rfl
  · simp only [session.Data, session.Status, hopen]
    split <;> simp_all [applyCloseCb]

/-- C4 witness: the concrete fresh session has no status; after a full copy
whose close reports a success status, that exact status is returned. -/
theorem status_absent_then_latched_witness :
    denvAccept.dataErr = none ∧
    denvAccept.closeCallback = some (some ⟨250, (2, 0, 0), "ok"⟩) ∧
    (session.Status (freshSession none (New "x:1"))).1 = none ∧
    (session.Status (session.Data sPlain denvAccept rOK).1).1 =
      some ⟨250, (2, 0, 0), "ok"⟩ := by
  refine ⟨by decide, by decide, ?_⟩
  exact status_absent_then_latched (New "x:1") none sPlain denvAccept rOK
    ⟨250, (2, 0, 0), "ok"⟩ (by decide) (by decide)

/-- C9: no session-adapter operation other than `Logout` ever closes or
quits the upstream connection — their traces hold no close and no quit
event, even when the forwarded command errors — `Status` performs no
upstream operation at all, and `Logout` performs exactly the graceful quit. -/
theorem session_ops_never_close_connection (e1 e2 e3 e4 e5 : Option Err)
    (f t : String) (s : session) (denv : DataEnv) (r : Reader) :
    Event.clientClose ∉ session.Reset e1 ∧ Event.quit ∉ session.Reset e1 ∧
    Event.clientClose ∉ ( session.Noop e2).2 ∧ Event.quit ∉ ( session.Noop e2).2 ∧
    Event.clientClose ∉ ( session.Mail f e3).2 ∧ Event.quit ∉ ( session.Mail f e3).2 ∧
    Event.clientClose ∉ ( session.Rcpt t e4).2 ∧ Event.quit ∉ ( session.Rcpt t e4).2 ∧
    Event.clientClose ∉ ( session.Data s denv r).2.2 ∧
    Event.quit ∉ ( session.Data s denv r).2.2 ∧
    ( session.Status s).2 = [] ∧
    ( session.Logout e5).2 = [Event.quit] := by
  refine ⟨by simp [session.Reset], by simp [session.Reset], by simp [session.Noop],
    by simp [session.Noop], by simp [session.Mail], by simp [session.Mail],
    by simp [session.Rcpt], by simp [session.Rcpt], ?_, ?_, rfl, rfl⟩
  · simp only [session.Data]
    repeat' split
    all_goals simp
  · simp only [session.Data]
    repeat' split
    all_goals simp

/-- C5: whenever `login` (for `Login`) or the factory (for `AnonymousLogin`)
fails while holding a non-nil client, the wrapper closes the client exactly
once, propagates the error and returns no session; on success the client is
wrapped in a fresh session and never closed. -/
theorem login_failure_closes_once (be : Backend) (env : Env) (h : Heap) :
    ((login be env h).err.isSome = true → (login be env h).client.isSome = true →
      (Login be env h).sess = none ∧
      (Login be env h).err = (login be env h).err ∧
      ((Login be env h).events).count Event.clientClose = 1) ∧
    ((newConn be env h).err.isSome = true → (newConn be env h).client.isSome = true →
      (AnonymousLogin be env h).sess = none ∧
      (AnonymousLogin be env h).err = (newConn be env h).err ∧
      ((AnonymousLogin be env h).events).count Event.clientClose = 1) ∧
    ((login be env h).err = none →
      (Login be env h).sess = some (freshSession (login be env h).client be) ∧
      ((Login be env h).events).count Event.clientClose = 0) ∧
    ((newConn be env h).err = none →
      (AnonymousLogin be env h).sess = some (freshSession (newConn be env h).client be) ∧
      ((AnonymousLogin be env h).events).count Event.clientClose = 0) := by
  have hl0 : ((login be env h).events).count Event.clientClose = 0 :=
    List.count_eq_zero.mpr (login_no_close be env h)
  have hn0 : ((newConn be env h).events).count Event.clientClose = 0 :=
    List.count_eq_zero.mpr (newConn_events_clean be env h).1
  refine ⟨?_, ?_, ?_, ?_⟩
  · intro he hc
    rcases hE : (login be env h).err with _ | e
    · rw [hE] at he
      simp at he
    · rcases hC : (login be env h).client with _ | cl
      · rw [hC] at hc
        simp at hc
      · simp [Login, hE, hC, List.count_append, List.count_cons, hl0]
  · intro he hc
    rcases hE : (newConn be env h).err with _ | e
    · rw [hE] at he
      simp at he
    · rcases hC : (newConn be env h).client with _ | cl
      · rw [hC] at hc
        simp at hc
      · simp [AnonymousLogin, hE, hC, List.count_append, List.count_cons, hn0]
  · intro hE
    simp [Login, hE, hl0]
  · intro hE
    simp [AnonymousLogin, hE, hn0]

/-- C5 witness: with a failing authentication exchange, `Login` on the SMTP
backend returns no session and closes the connection exactly once. -/
theorem login_failure_closes_once_witness :
    (login beSmtp envAuthFail []).err.isSome = true ∧
    (login beSmtp envAuthFail []).client.isSome = true ∧
    (Login beSmtp envAuthFail []).sess = none ∧
    ((Login beSmtp envAuthFail []).events).count Event.clientClose = 1 := by
  refine ⟨by decide, by decide, ?_⟩
  have h := (login_failure_closes_once beSmtp envAuthFail []).1 (by decide) (by decide)
  exact ⟨h.1, h.2.2⟩

/-- C6 amended: the LMTP protocol client is always initialized with the
configured `Host` field verbatim (`backend.go` line 122 passes `be.Host`,
not the resolved host); this coincides with the resolved host identity
exactly when `Host` is set. -/
theorem lmtp_client_uses_backend_host (be : Backend) (env : Env) (h : Heap)
    (hst : String)
    (hc : (newConn be env h).client = some (Client.lmtp hst)) :
    hst = be.Host ∧ (be.Host ≠ "" → hst = resolveHost be) := by
  have hb : hst = be.Host := by
    revert hc
    simp only [newConn, finishConn]
    repeat' split
    all_goals intro hc
    all_goals simp_all
  refine ⟨hb, fun hne => ?_⟩
  simp [resolveHost, hne, hb]

/-- C6 counterexample: an LMTP backend with `Host` unset and address
`mail.example.org:24` initializes the LMTP client with the empty string,
while the resolved host identity is `mail.example.org`. -/
theorem lmtp_client_host_mismatch :
    (newConn beLmtpNoHost envOK []).client = some (Client.lmtp "") ∧
    resolveHost beLmtpNoHost = "mail.example.org" ∧
    ("" : String) ≠ "mail.example.org" := by decide

/-- C6 witness: with `Host` set, the LMTP client host equals the resolved
host identity. -/
theorem lmtp_client_uses_backend_host_witness :
    (newConn beLmtpHost envOK []).client = some (Client.lmtp "h") ∧
    beLmtpHost.Host ≠ "" ∧
    "h" = resolveHost beLmtpHost := by
  refine ⟨by decide, by decide, ?_⟩
  exact (lmtp_client_uses_backend_host beLmtpHost envOK [] "h" (by decide)).2
    (by decide)

/-- C7 amended: the configuration error and a dial failure return a nil
connection; an SMTP initialization failure returns the already-built SMTP
client (carrying the resolved timeouts) alongside the error, and identity-
announcement and STARTTLS failures always return a non-nil client; but an
LMTP initialization failure returns a nil connection together with the
error, because the LMTP client constructor yields no client on failure. -/
theorem newConn_error_client_reference (be : Backend) (env : Env) (h : Heap) :
    ((newConn be env h).err = some Err.lmtpTLS → (newConn be env h).client = none) ∧
    ((newConn be env h).err = some Err.dialErr → (newConn be env h).client = none) ∧
    ((newConn be env h).err = some Err.initErr → be.LMTP = true →
      (newConn be env h).client = none) ∧
    ((newConn be env h).err = some Err.initErr → be.LMTP = false →
      (newConn be env h).client =
        some (Client.smtp (resolveCommandTimeout be) (resolveSubmissionTimeout be))) ∧
    ((newConn be env h).err = some Err.helloErr →
      (newConn be env h).client.isSome = true) ∧
    ((newConn be env h).err = some Err.startTLSErr →
      (newConn be env h).client.isSome = true) := by
  simp only [newConn, finishConn]
  repeat' split
  all_goals simp_all

/-- C7 counterexample: a well-formed LMTP configuration whose protocol-client
initialization fails after a successful dial yields the error together with
a nil connection reference, not a non-nil one. -/
theorem lmtp_init_failure_nil_client :
    (newConn beLmtpHost envInitFail []).err = some Err.initErr ∧
    Event.dial ∈ (newConn beLmtpHost envInitFail []).events ∧
    (newConn beLmtpHost envInitFail []).client = none := by decide

/-- C7 witness: an SMTP initialization failure returns the built client with
the resolved timeouts. -/
theorem newConn_error_client_reference_witness :
    (newConn beSmtp envInitFail []).err = some Err.initErr ∧
    beSmtp.LMTP = false ∧
    (newConn beSmtp envInitFail []).client =
      some (Client.smtp (resolveCommandTimeout beSmtp)
        (resolveSubmissionTimeout beSmtp)) := by
  refine ⟨by decide, by decide, ?_⟩
  exact (newConn_error_client_reference beSmtp envInitFail []).2.2.2.1
    (by decide) (by decide)

/-- Appending a fresh cell leaves every existing cell readable unchanged. -/
theorem heapGet_append_lt (h : Heap) (c : TLSConfig) (q : Nat)
    (hq : q < h.length) : heapGet (h ++ [c]) q = heapGet h q := by
  induction h generalizing q with
  | nil => simp at hq
  | cons x t ih =>
    cases q with
    | zero => rfl
    | succ n =>
      simp only [List.cons_append, heapGet]
      exact ih n (by simp at hq; omega)

/-- Writing one cell leaves every other cell unchanged. -/
theorem heapGet_heapSet_ne (h : Heap) (p q : Nat) (c : TLSConfig)
    (hne : p ≠ q) : heapGet (heapSet h p c) q = heapGet h q := by
  induction h generalizing p q with
  | nil => rfl
  | cons x t ih =>
    cases p with
    | zero =>
      cases q with
      | zero => exact absurd rfl hne
      | succ m => rfl
    | succ n =>
      cases q with
      | zero => rfl
      | succ m =>
        simp only [heapSet, heapGet]
        exact ih n m (fun hh => hne (by rw [hh]))

/-- TLS resolution only allocates a fresh cell (the clone or the synthesized
empty config) and writes the server-name default into that fresh cell; every
pre-existing config cell is left unchanged. -/
theorem resolveTLS_preserves (be : Backend) (host : String) (h : Heap) (q : Nat)
    (hq : q < h.length) :
    heapGet (resolveTLS be host h).1 q = heapGet h q := by
  have hne : h.length ≠ q := by omega
  rcases hT : be.TLSConfig with _ | p
  all_goals simp only [resolveTLS, heapAlloc, hT]
  all_goals split
  all_goals simp [heapGet_heapSet_ne _ _ _ _ hne, heapGet_append_lt _ _ _ hq]

/-- C10: a `newConn` call leaves the backend-referenced and every other
pre-existing `tls.Config` cell unchanged — the server-name defaulting is
applied only to the freshly allocated clone (or synthesized empty config). -/
theorem newConn_preserves_existing_tls_configs (be : Backend) (env : Env)
    (h : Heap) (q : Nat) (hq : q < h.length) :
    heapGet (newConn be env h).heap q = heapGet h q := by
  rw [newConn_heap_eq]
  exact resolveTLS_preserves be (resolveHost be) h q hq

/-- C10 witness: the cell the concrete backend points at keeps its empty
server name after `newConn`, even though the working clone was defaulted. -/
theorem newConn_preserves_existing_tls_configs_witness :
    0 < heapOne.length ∧
    heapGet (newConn beSmtpTLSPtr envOK heapOne).heap 0 = heapGet heapOne 0 :=
  ⟨by decide,
    newConn_preserves_existing_tls_configs beSmtpTLSPtr envOK heapOne 0 (by decide)⟩

end Proxy
